import Mathlib

/-
  Verification of src/linux/user-management/clone-user.py.

  The script is a single linear procedure: check privilege, resolve the
  source ("clone") account, ensure the target ("new") account is absent,
  derive the source's supplementary groups, build a `useradd` command,
  prompt for confirmation, run the command and verify the target now
  resolves.  We embed the platform account/group directories as lists of
  records, the script's run as a pure function from an environment to a
  result record, and prove the spec's claims about it.
-/

namespace CloneUser

/-- An entry of the platform account directory (a `pwd` record): the
account name (`pw_name`) and login shell path (`pw_shell`), the two
fields the script reads. -/
structure PwEntry where
  pw_name : String
  pw_shell : String
deriving DecidableEq, Repr

/-- An entry of the platform group directory (a `grp` record): the group
name (`gr_name`) and the member name list (`gr_mem`). -/
structure GrEntry where
  gr_name : String
  gr_mem : List String
deriving DecidableEq, Repr

/-- `pwd.getpwnam`: look a name up in the account directory, returning
the first entry with that name, or `none` (the `KeyError` case). -/
def getpwnam (db : List PwEntry) (name : String) : Option PwEntry :=
  db.find? (fun e => e.pw_name == name)

/-- One iteration of the group-derivation loop (clone-user.py lines
67-69): append the group's name when the source name is among its
members and is not equal to the group's name. -/
def cloneStep (cloneName : String) (acc : List String) (g : GrEntry) : List String :=
  if cloneName ∈ g.gr_mem ∧ ¬ cloneName = g.gr_name then acc ++ [g.gr_name] else acc

/-- The group-derivation loop (clone-user.py lines 65-69): fold
`cloneStep` over the whole group directory, starting from the empty
list. -/
def cloneGroups (groups : List GrEntry) (cloneName : String) : List String :=
  groups.foldl (cloneStep cloneName) []

/-- Python's `str.lower()` applied to the confirmation input: lowercase
every character.  (`Char.toLower` agrees with Python on the inputs that
matter here: no character other than "Y" lowercases to "y", and none
other than the characters of "YES" produce "yes".) -/
def lower (s : String) : String :=
  ⟨s.data.map Char.toLower⟩

/-- The parsed command line: required source and target names, optional
full (display) name. -/
structure Args where
  clone_user : String
  new_user : String
  full_name : Option String
deriving DecidableEq, Repr

/-- The command list built at clone-user.py lines 72-85: `useradd` with
the source's shell, `--create-home`, `--user-group`, the derived groups
comma-joined as one argument, the target name, and, when a full name was
supplied, `--comment` with the full name wrapped in literal double
quotes. -/
def buildCmd (shell : String) (groups : List String) (newUser : String)
    (fullName : Option String) : List String :=
  ["useradd", "--shell", shell, "--create-home", "--user-group", "--groups",
    String.intercalate "," groups, newUser]
  ++ (match fullName with
      | some fn => ["--comment", "\"" ++ fn ++ "\""]
      | none => [])

/-- The environment of one run: effective uid, the account and group
directories as read before execution, the parsed arguments, the
operator's confirmation input, and the account directory as read by the
post-execution check (after `os.system` ran). -/
structure Env where
  euid : Nat
  passwd : List PwEntry
  groups : List GrEntry
  args : Args
  choice : String
  passwdAfter : List PwEntry
deriving Repr

/-- Observable outcome of one run: exit status, the messages written to
the error and output streams, which names were looked up in the account
directory before execution, whether the group directory was enumerated,
the derived group list and built command (when reached), whether the
confirmation prompt was reached, and whether the creation facility was
invoked. -/
structure RunResult where
  exitCode : Nat
  stderr : List String
  stdout : List String
  accountLookups : List String
  groupDirRead : Bool
  derivedGroups : Option (List String)
  cmd : Option (List String)
  prompted : Bool
  creationInvoked : Bool
deriving DecidableEq, Repr

/-- The whole script, clone-user.py lines 44-104: privilege gate, source
lookup, target-absence gate, group derivation, command construction,
confirmation prompt, execution, post-check. -/
def runProgram (env : Env) : RunResult :=
  if env.euid ≠ 0 then
    { exitCode := 1
      stderr := ["Insufficient privelege!"]
      stdout := []
      accountLookups := []
      groupDirRead := false
      derivedGroups := none
      cmd := none
      prompted := false
      creationInvoked := false }
  else
    match getpwnam env.passwd env.args.clone_user with
    | none =>
      { exitCode := 1
        stderr := ["Unable to find clone source user [" ++ env.args.clone_user ++ "]!"]
        stdout := []
        accountLookups := [env.args.clone_user]
        groupDirRead := false
        derivedGroups := none
        cmd := none
        prompted := false
        creationInvoked := false }
    | some clone_user =>
      match getpwnam env.passwd env.args.new_user with
      | some _ =>
        { exitCode := 1
          stderr := ["New user [" ++ env.args.new_user ++ "] already exists!"]
          stdout := []
          accountLookups := [env.args.clone_user, env.args.new_user]
          groupDirRead := false
          derivedGroups := none
          cmd := none
          prompted := false
          creationInvoked := false }
      | none =>
        let clone_groups := cloneGroups env.groups clone_user.pw_name
        let cmd := buildCmd clone_user.pw_shell clone_groups env.args.new_user
          env.args.full_name
        let display := "Command to run:\n    " ++ String.intercalate " " cmd ++ "\n"
        if lower env.choice ∈ ["y", "yes"] then
          match getpwnam env.passwdAfter env.args.new_user with
          | some created =>
            { exitCode := 0
              stderr := []
              stdout := [display,
                "User [" ++ created.pw_name ++ "] has been successfully created."]
              accountLookups := [env.args.clone_user, env.args.new_user]
              groupDirRead := true
              derivedGroups := some clone_groups
              cmd := some cmd
              prompted := true
              creationInvoked := true }
          | none =>
            { exitCode := 1
              stderr := []
              stdout := [display,
                "Failed to create user [" ++ env.args.new_user ++ "]!"]
              accountLookups := [env.args.clone_user, env.args.new_user]
              groupDirRead := true
              derivedGroups := some clone_groups
              cmd := some cmd
              prompted := true
              creationInvoked := true }
        else
          { exitCode := 0
            stderr := []
            stdout := [display, "Operation cancelled."]
            accountLookups := [env.args.clone_user, env.args.new_user]
            groupDirRead := true
            derivedGroups := some clone_groups
            cmd := some cmd
            prompted := true
            creationInvoked := false }

/-- Folding the derivation step from any accumulator only appends to it. -/
theorem foldl_cloneStep (S : String) (G : List GrEntry) (acc : List String) :
    G.foldl (cloneStep S) acc = acc ++ G.foldl (cloneStep S) [] := by
  induction G generalizing acc with
  | nil => simp
  | cons g G ih =>
    rw [List.foldl_cons, List.foldl_cons, ih (cloneStep S acc g),
      ih (cloneStep S [] g)]
    unfold cloneStep
    split <;> simp

/-- Unfolding the derivation over the head of the group directory. -/
theorem cloneGroups_cons (g : GrEntry) (G : List GrEntry) (S : String) :
    cloneGroups (g :: G) S = cloneStep S [] g ++ cloneGroups G S := by
  unfold cloneGroups
  rw [List.foldl_cons, foldl_cloneStep]

/-- The derived list is a sublist of the directory's name list. -/
theorem cloneGroups_sublist (G : List GrEntry) (S : String) :
    (cloneGroups G S).Sublist (G.map GrEntry.gr_name) := by
  induction G with
  | nil => simp [cloneGroups]
  | cons g G ih =>
    rw [cloneGroups_cons, List.map_cons]
    unfold cloneStep
    split
    · simpa using List.Sublist.cons₂ g.gr_name ih
    · simpa using List.Sublist.cons g.gr_name ih

/-- Membership in the derived list: a name occurs iff some group of the
directory bears that name, lists the source among its members, and has a
name different from the source's name. -/
theorem mem_cloneGroups (G : List GrEntry) (S g : String) :
    g ∈ cloneGroups G S ↔
      ∃ gr, gr ∈ G ∧ gr.gr_name = g ∧ S ∈ gr.gr_mem ∧ gr.gr_name ≠ S := by
  induction G with
  | nil => simp [cloneGroups]
  | cons a G ih =>
    rw [cloneGroups_cons, List.mem_append, ih]
    unfold cloneStep
    by_cases h : S ∈ a.gr_mem ∧ ¬ S = a.gr_name
    · rw [if_pos h]
      constructor
      · rintro (hg | ⟨gr, hgr, hname, hmem, hne⟩)
        · refine ⟨a, List.mem_cons_self a G, ?_, h.1, fun hc => h.2 hc.symm⟩
          have hga : g = a.gr_name := by simpa using hg
          exact hga.symm
        · exact ⟨gr, List.mem_cons_of_mem a hgr, hname, hmem, hne⟩
      · rintro ⟨gr, hgr, hname, hmem, hne⟩
        rcases List.mem_cons.mp hgr with rfl | hgr
        · exact Or.inl (by simpa using hname.symm)
        · exact Or.inr ⟨gr, hgr, hname, hmem, hne⟩
    · rw [if_neg h]
      simp only [List.not_mem_nil, false_or]
      constructor
      · rintro ⟨gr, hgr, hname, hmem, hne⟩
        exact ⟨gr, List.mem_cons_of_mem a hgr, hname, hmem, hne⟩
      · rintro ⟨gr, hgr, hname, hmem, hne⟩
        rcases List.mem_cons.mp hgr with rfl | hgr
        · exact absurd ⟨hmem, fun hc => hne hc.symm⟩ h
        · exact ⟨gr, hgr, hname, hmem, hne⟩

/-- C1: a name is in the derived group set iff some group of the
directory bears that name, lists the source account among its members,
and has a name different from the source account's name. -/
theorem derived_groups_spec (G : List GrEntry) (S g : String) :
    g ∈ cloneGroups G S ↔
      ∃ gr, gr ∈ G ∧ gr.gr_name = g ∧ S ∈ gr.gr_mem ∧ gr.gr_name ≠ S :=
  mem_cloneGroups G S g

/-- C2 counterexample: a group directory holding two groups that share
the name "dev", both listing "s" as a member, yields the derived
collection ["dev", "dev"], which contains a duplicate; so the derived
collection is not duplicate-free for every group directory input. -/
theorem derived_groups_dup_counterexample :
    cloneGroups [⟨"dev", ["s"]⟩, ⟨"dev", ["s"]⟩] "s" = ["dev", "dev"] ∧
      ¬ ((cloneGroups [⟨"dev", ["s"]⟩, ⟨"dev", ["s"]⟩] "s").Nodup ∧
          "s" ∉ cloneGroups [⟨"dev", ["s"]⟩, ⟨"dev", ["s"]⟩] "s") := by
  refine ⟨by decide, ?_⟩
  rintro ⟨hnd, -⟩
  revert hnd
  decide

/-- C2 (amended): when the group directory's names are pairwise
distinct, the derived collection has no duplicate names; and for every
group directory — with no hypothesis at all — it never contains the
source account's name (the primary-group name). -/
theorem derived_groups_nodup (G : List GrEntry) (S : String) :
    ((G.map GrEntry.gr_name).Nodup → (cloneGroups G S).Nodup) ∧ S ∉ cloneGroups G S := by
  refine ⟨fun h => (cloneGroups_sublist G S).nodup h, fun hmem => ?_⟩
  rcases (mem_cloneGroups G S S).mp hmem with ⟨gr, -, hname, -, hne⟩
  exact hne hname

/-- C2 witness: the duplicate-free conjunct discharged at a concrete
two-group directory with distinct names, the exclusion conjunct taken
at the same directory. -/
theorem derived_groups_nodup_witness :
    (cloneGroups [⟨"sudo", ["debian"]⟩, ⟨"debian", ["debian"]⟩] "debian").Nodup ∧
      "debian" ∉ cloneGroups [⟨"sudo", ["debian"]⟩, ⟨"debian", ["debian"]⟩] "debian" :=
  ⟨(derived_groups_nodup [⟨"sudo", ["debian"]⟩, ⟨"debian", ["debian"]⟩] "debian").1 (by decide),
    (derived_groups_nodup [⟨"sudo", ["debian"]⟩, ⟨"debian", ["debian"]⟩] "debian").2⟩

/-- Account directory fixture: just the source account. -/
def basePasswd : List PwEntry := [⟨"debian", "/bin/bash"⟩]

/-- Group directory fixture: a supplementary group listing the source and
the source's own primary group. -/
def baseGroups : List GrEntry := [⟨"sudo", ["debian"]⟩, ⟨"debian", ["debian"]⟩]

/-- A run without privilege. -/
def envNoPriv : Env := ⟨1000, basePasswd, baseGroups, ⟨"debian", "tot", none⟩, "y", basePasswd⟩

/-- A privileged run whose post-execution directory resolves the target. -/
def envHappy : Env :=
  ⟨0, basePasswd, baseGroups, ⟨"debian", "tot", none⟩, "y",
    [⟨"debian", "/bin/bash"⟩, ⟨"tot", "/bin/bash"⟩]⟩

/-- A privileged run whose source account is absent from the directory. -/
def envNoSource : Env := ⟨0, [], baseGroups, ⟨"debian", "tot", none⟩, "y", []⟩

/-- A privileged run whose target account already exists. -/
def envTargetExists : Env :=
  ⟨0, [⟨"debian", "/bin/bash"⟩, ⟨"tot", "/bin/sh"⟩], baseGroups,
    ⟨"debian", "tot", none⟩, "y", [⟨"debian", "/bin/bash"⟩, ⟨"tot", "/bin/sh"⟩]⟩

/-- A privileged run answered with a negative confirmation. -/
def envCancel : Env := ⟨0, basePasswd, baseGroups, ⟨"debian", "tot", none⟩, "n", basePasswd⟩

/-- A privileged, confirmed run whose post-execution lookup of the target
fails (the directory still lacks the target). -/
def envPostFail : Env := ⟨0, basePasswd, baseGroups, ⟨"debian", "tot", none⟩, "y", basePasswd⟩

/-- A privileged run supplying a display name. -/
def envFullName : Env :=
  ⟨0, basePasswd, baseGroups, ⟨"debian", "tot", some "John Doe"⟩, "n", basePasswd⟩

/-- A privileged run where the source belongs to no group besides its
primary group, so the derived group set is empty. -/
def envNoGroups : Env :=
  ⟨0, basePasswd, [⟨"debian", ["debian"]⟩], ⟨"debian", "tot", none⟩, "n", basePasswd⟩

/-- Once the three validation gates pass, the recorded command is the
built `useradd` command, whatever the confirmation and post-check do. -/
theorem runProgram_cmd_eq (env : Env) (cu : PwEntry) (h0 : env.euid = 0)
    (h1 : getpwnam env.passwd env.args.clone_user = some cu)
    (h2 : getpwnam env.passwd env.args.new_user = none) :
    (runProgram env).cmd =
      some (buildCmd cu.pw_shell (cloneGroups env.groups cu.pw_name) env.args.new_user
        env.args.full_name) := by
  simp only [runProgram, h0, h1, h2]
  rw [if_neg (show ¬(0 : Nat) ≠ 0 by simp)]
  split
  · split <;> rfl
  · rfl

/-- C5: without administrative privilege the program performs no account
or group directory lookups and exits with status 1; the privilege gate
comes before every other validation. -/
theorem privilege_gate_first (env : Env) (h : env.euid ≠ 0) :
    (runProgram env).accountLookups = [] ∧ (runProgram env).groupDirRead = false ∧
      (runProgram env).exitCode = 1 := by
  simp [runProgram, h]

/-- C5 witness: a run with effective uid 1000. -/
theorem privilege_gate_first_witness :
    (runProgram envNoPriv).accountLookups = [] ∧
      (runProgram envNoPriv).groupDirRead = false ∧
      (runProgram envNoPriv).exitCode = 1 :=
  privilege_gate_first envNoPriv (by decide)

/-- C6: when the source account is absent, the program exits 1 with a
source-not-found message on the error stream, derives no groups, and
builds no command. -/
theorem source_missing_aborts (env : Env) (h0 : env.euid = 0)
    (h1 : getpwnam env.passwd env.args.clone_user = none) :
    (runProgram env).exitCode = 1 ∧
      ("Unable to find clone source user [" ++ env.args.clone_user ++ "]!") ∈
        (runProgram env).stderr ∧
      (runProgram env).derivedGroups = none ∧ (runProgram env).cmd = none := by
  simp [runProgram, h0, h1]

/-- C6 witness: a run against an empty account directory. -/
theorem source_missing_aborts_witness :
    (runProgram envNoSource).exitCode = 1 ∧
      ("Unable to find clone source user [" ++ envNoSource.args.clone_user ++ "]!") ∈
        (runProgram envNoSource).stderr ∧
      (runProgram envNoSource).derivedGroups = none ∧
      (runProgram envNoSource).cmd = none :=
  source_missing_aborts envNoSource (by decide) (by decide)

/-- C7: when the target account already exists, the program exits 1 with
an already-exists message on the error stream, never reaches the
confirmation prompt and never invokes the creation facility. -/
theorem target_exists_aborts (env : Env) (cu nu : PwEntry) (h0 : env.euid = 0)
    (h1 : getpwnam env.passwd env.args.clone_user = some cu)
    (h2 : getpwnam env.passwd env.args.new_user = some nu) :
    (runProgram env).exitCode = 1 ∧
      ("New user [" ++ env.args.new_user ++ "] already exists!") ∈ (runProgram env).stderr ∧
      (runProgram env).prompted = false ∧ (runProgram env).creationInvoked = false := by
  simp [runProgram, h0, h1, h2]

/-- C7 witness: a run whose target is already in the directory. -/
theorem target_exists_aborts_witness :
    (runProgram envTargetExists).exitCode = 1 ∧
      ("New user [" ++ envTargetExists.args.new_user ++ "] already exists!") ∈
        (runProgram envTargetExists).stderr ∧
      (runProgram envTargetExists).prompted = false ∧
      (runProgram envTargetExists).creationInvoked = false :=
  target_exists_aborts envTargetExists ⟨"debian", "/bin/bash"⟩ ⟨"tot", "/bin/sh"⟩
    (by decide) (by decide) (by decide)

/-- C8: any confirmation input whose lowercasing is neither "y" nor
"yes" prints a cancellation message, does not invoke the creation
facility, and exits with status 0. -/
theorem negative_confirmation_cancels (env : Env) (cu : PwEntry) (h0 : env.euid = 0)
    (h1 : getpwnam env.passwd env.args.clone_user = some cu)
    (h2 : getpwnam env.passwd env.args.new_user = none)
    (h3 : lower env.choice ∉ ["y", "yes"]) :
    (runProgram env).exitCode = 0 ∧ "Operation cancelled." ∈ (runProgram env).stdout ∧
      (runProgram env).creationInvoked = false := by
  simp [runProgram, h0, h1, h2, h3]

/-- C8 witness: a run answered "n". -/
theorem negative_confirmation_cancels_witness :
    (runProgram envCancel).exitCode = 0 ∧
      "Operation cancelled." ∈ (runProgram envCancel).stdout ∧
      (runProgram envCancel).creationInvoked = false :=
  negative_confirmation_cancels envCancel ⟨"debian", "/bin/bash"⟩
    (by decide) (by decide) (by decide) (by decide)

/-- C3 counterexample: in a confirmed run whose post-execution lookup
fails, the creation-failed message goes to the standard output stream,
and the error stream stays empty — so the claim's "on the error stream"
is false of the code (the exit status 1 part holds). -/
theorem creation_failed_stream_counterexample :
    (runProgram envPostFail).exitCode = 1 ∧
      "Failed to create user [tot]!" ∈ (runProgram envPostFail).stdout ∧
      (runProgram envPostFail).stderr = [] := by decide

/-- C3 (amended): when the post-execution lookup of the target fails,
the program reports a creation-failed message naming the target on the
standard output stream and exits with status 1. -/
theorem creation_failed_reported (env : Env) (cu : PwEntry) (h0 : env.euid = 0)
    (h1 : getpwnam env.passwd env.args.clone_user = some cu)
    (h2 : getpwnam env.passwd env.args.new_user = none)
    (h3 : lower env.choice ∈ ["y", "yes"])
    (h4 : getpwnam env.passwdAfter env.args.new_user = none) :
    (runProgram env).exitCode = 1 ∧
      ("Failed to create user [" ++ env.args.new_user ++ "]!") ∈ (runProgram env).stdout := by
  simp [runProgram, h0, h1, h2, h3, h4]

/-- C3 witness: the confirmed run whose post-check fails. -/
theorem creation_failed_reported_witness :
    (runProgram envPostFail).exitCode = 1 ∧
      ("Failed to create user [" ++ envPostFail.args.new_user ++ "]!") ∈
        (runProgram envPostFail).stdout :=
  creation_failed_reported envPostFail ⟨"debian", "/bin/bash"⟩
    (by decide) (by decide) (by decide) (by decide) (by decide)

/-- C4 counterexample: with display name "John Doe" supplied, the built
command carries the comment value `"John Doe"` — the name wrapped in
literal double-quote characters — and the supplied name itself is not an
element of the command, so the comment value is not exactly the supplied
display name. -/
theorem comment_value_counterexample :
    (runProgram envFullName).cmd =
      some ["useradd", "--shell", "/bin/bash", "--create-home", "--user-group",
        "--groups", "sudo", "tot", "--comment", "\"John Doe\""] ∧
      "John Doe" ∉ ["useradd", "--shell", "/bin/bash", "--create-home", "--user-group",
        "--groups", "sudo", "tot", "--comment", "\"John Doe\""] := by decide

/-- C4 (amended): when a display name is supplied, the built command
ends with a comment field whose value is the supplied display name
enclosed in double-quote characters. -/
theorem comment_field_quoted (env : Env) (cu : PwEntry) (fn : String) (h0 : env.euid = 0)
    (h1 : getpwnam env.passwd env.args.clone_user = some cu)
    (h2 : getpwnam env.passwd env.args.new_user = none)
    (hf : env.args.full_name = some fn) :
    ["--comment", "\"" ++ fn ++ "\""] <:+ ((runProgram env).cmd.getD []) := by
  rw [runProgram_cmd_eq env cu h0 h1 h2]
  simp only [Option.getD_some, buildCmd, hf]
  exact List.suffix_append _ _

/-- C4 witness: the run supplying the display name "John Doe". -/
theorem comment_field_quoted_witness :
    ["--comment", "\"" ++ "John Doe" ++ "\""] <:+ ((runProgram envFullName).cmd.getD []) :=
  comment_field_quoted envFullName ⟨"debian", "/bin/bash"⟩ "John Doe"
    (by decide) (by decide) (by decide) (by decide)

/-- C9: past the validation gates, the built command is exactly the
creation facility name, the source's shell behind the shell flag, the
home-directory instruction, the matching-primary-group instruction, the
derived group set comma-joined as one argument behind the groups flag,
the target name — and, exactly when a display name was supplied, a
trailing comment field carrying it in double quotes. -/
theorem built_command_contents (env : Env) (cu : PwEntry) (h0 : env.euid = 0)
    (h1 : getpwnam env.passwd env.args.clone_user = some cu)
    (h2 : getpwnam env.passwd env.args.new_user = none) :
    (runProgram env).cmd =
      some (["useradd", "--shell", cu.pw_shell, "--create-home", "--user-group", "--groups",
        String.intercalate "," (cloneGroups env.groups cu.pw_name), env.args.new_user]
      ++ (match env.args.full_name with
          | some fn => ["--comment", "\"" ++ fn ++ "\""]
          | none => [])) :=
  runProgram_cmd_eq env cu h0 h1 h2

/-- C9 witness: the happy-path run, whose command evaluates to the
expected literal list. -/
theorem built_command_contents_witness :
    (runProgram envHappy).cmd =
      some ["useradd", "--shell", "/bin/bash", "--create-home", "--user-group",
        "--groups", "sudo", "tot"] := by
  rw [built_command_contents envHappy ⟨"debian", "/bin/bash"⟩ (by decide) (by decide) (by decide)]
  decide

/-- C10: when the derived group set is empty, the built command still
carries the groups flag followed by an empty-string argument. -/
theorem empty_group_set_keeps_flag (env : Env) (cu : PwEntry) (h0 : env.euid = 0)
    (h1 : getpwnam env.passwd env.args.clone_user = some cu)
    (h2 : getpwnam env.passwd env.args.new_user = none)
    (h3 : cloneGroups env.groups cu.pw_name = []) :
    ["--groups", ""] <:+: ((runProgram env).cmd.getD []) := by
  rw [runProgram_cmd_eq env cu h0 h1 h2]
  simp only [Option.getD_some, buildCmd, h3]
  exact ⟨["useradd", "--shell", cu.pw_shell, "--create-home", "--user-group"],
    env.args.new_user ::
      (match env.args.full_name with
        | some fn => ["--comment", "\"" ++ fn ++ "\""]
        | none => []), rfl⟩

/-- C10 witness: the run whose source is in no supplementary group. -/
theorem empty_group_set_keeps_flag_witness :
    ["--groups", ""] <:+: ((runProgram envNoGroups).cmd.getD []) :=
  empty_group_set_keeps_flag envNoGroups ⟨"debian", "/bin/bash"⟩
    (by decide) (by decide) (by decide) (by decide)

end CloneUser
